import Mathlib

/-!
Verification development for the pdf-grader repository.

The repository wraps one pipeline — extract text from uploaded files,
compose a prompt, call the Gemini API, normalize the reply into a
`{score, feedback}` record — in two deployment shells: a persistent Express
server, whose source is under `src/` and is embedded here line by line
(the `*Server` definitions, `serverAnalyze`), and a Netlify serverless
function whose source is NOT under `src/`.  Serverless components a claim
needs are therefore modelled from the spec's words and carry a
`Modelled from the spec:` doc comment (`normalizeServerless`,
`extractTextSpec`, `callGeminiAPISpec`, `serverlessHandlerSpec`).

External libraries (`pdf-parse`, `mammoth`, `JSON.parse`, base64 decode,
the Gemini client) are modelled as oracle parameters collected in `Libs`;
everything the server source itself does — extension dispatch, the fixed
regex-based response repair, error categorization, and the HTTP handler —
is embedded as executable Lean functions over `List Char` / `String`.

JavaScript semantics modelled explicitly:
  * `String.prototype.replace(/re/g, ...)` with the concrete regexes of the
    source is a left-to-right, non-overlapping scan (`gsubF` with a
    per-pattern matcher);
  * `\s*` in those regexes is greedy whitespace skipping (`dropWsL`);
  * falsy strings are exactly `""`, falsy optional values are `none`;
  * thrown exceptions are `Except.error` propagated to the handler `catch`.
-/

namespace PdfGrader

/-- JS `\s` whitespace class restricted to the ASCII range (space, tab,
newline, carriage return, vertical tab, form feed). -/
def isJsWs (c : Char) : Bool :=
  c = ' ' || c = '\t' || c = '\n' || c = '\r' || c = Char.ofNat 11 || c = Char.ofNat 12

/-- Greedily drop leading whitespace: the `\s*` of the source regexes. -/
def dropWsL : List Char → List Char
  | [] => []
  | c :: rest => if isJsWs c then dropWsL rest else c :: rest

/-- Does the literal pattern occur at the start of the list? -/
def litAt : List Char → List Char → Bool
  | [], _ => true
  | _ :: _, [] => false
  | p :: ps, c :: cs => p = c && litAt ps cs

/-- Drop a literal pattern from the front, or fail. -/
def dropLit : List Char → List Char → Option (List Char)
  | [], l => some l
  | _ :: _, [] => none
  | p :: ps, c :: cs => if p = c then dropLit ps cs else none

/-- JS `String.prototype.includes` on char lists. -/
def containsLitL (pat : List Char) : List Char → Bool
  | [] => litAt pat []
  | l@(_ :: rest) => litAt pat l || containsLitL pat rest

/-- JS `String.prototype.endsWith` on char lists. -/
def endsWithL (pat l : List Char) : Bool :=
  litAt pat.reverse l.reverse

/-- Take the longest run of characters different from `stop`
(the greedy `[^stop]*` of the source regexes), returning it and the rest. -/
def spanNe (stop : Char) : List Char → List Char × List Char
  | [] => ([], [])
  | c :: rest =>
    if c = stop then ([], c :: rest)
    else
      let (t, r) := spanNe stop rest
      (c :: t, r)

/-- Fuel-indexed global replace-by-empty-string: scan left to right; where the
matcher fires, drop the matched span (the matcher returns the remainder) and
continue after it; otherwise emit one character and move on.  This is JS
`content.replace(/re/g, '')` for the anchored matcher `m`; every matcher used
below consumes at least one character, so fuel `length + 1` never runs out. -/
def gsubF (m : List Char → Option (List Char)) : Nat → List Char → List Char
  | 0, l => l
  | _ + 1, [] => []
  | fuel + 1, c :: rest =>
    match m (c :: rest) with
    | some r => gsubF m fuel r
    | none => c :: gsubF m fuel rest

/-- Global replace-by-empty-string with sufficient fuel. -/
def gsubL (m : List Char → Option (List Char)) (l : List Char) : List Char :=
  gsubF m (l.length + 1) l

/-- JS `.replace(/\\n/g, '\n')`: turn each literal backslash-n pair into a
newline character. -/
def replEscN : List Char → List Char
  | '\\' :: 'n' :: rest => '\n' :: replEscN rest
  | c :: rest => c :: replEscN rest
  | [] => []

/-- JS `String.prototype.trim` (ASCII whitespace at both ends). -/
def trimL (l : List Char) : List Char :=
  ((dropWsL (dropWsL l).reverse)).reverse

/-- String-level JS `trim`. -/
def jsTrim (s : String) : String := ⟨trimL s.data⟩

/-- String-level JS `includes`. -/
def jsIncludes (s pat : String) : Bool := containsLitL pat.data s.data

/-- String-level JS `endsWith`. -/
def jsEndsWith (s pat : String) : Bool := endsWithL pat.data s.data

/-- String-level JS `toLowerCase` (ASCII case folding, which is all the
dispatch extensions need). -/
def jsToLowerCase (s : String) : String := ⟨s.data.map Char.toLower⟩

end PdfGrader

namespace PdfGrader

/-! ### Anchored matchers for the concrete regexes of the source

Each matcher tries its regex at the start of the list; on success it returns
what follows the matched span (for global replaces) or the capture group (for
`String.prototype.match`).  Search = try at every index, left to right, which
is exactly the regex engine's behaviour for these backtracking-free patterns. -/

/-- The literal `"score":` of the score regexes. -/
def scoreKeyL : List Char := ('"' :: ("score".data ++ ['"', ':']))

/-- The literal `"feedback":` of the feedback regexes. -/
def feedbackKeyL : List Char := ('"' :: ("feedback".data ++ ['"', ':']))

/-- The literal three backticks followed by `json`. -/
def fenceJsonL : List Char := "```json".data

/-- The literal three backticks. -/
def fenceL : List Char := "```".data

/-- Anchored `KEY\s*"([^"]+)"`: returns the capture group. -/
def matchKeyQuotedAt (key : List Char) (l : List Char) : Option (List Char) :=
  match dropLit key l with
  | none => none
  | some r =>
    match dropWsL r with
    | '"' :: r2 =>
      match spanNe '"' r2 with
      | ([], _) => none
      | (c :: cs, '"' :: _) => some (c :: cs)
      | (_ :: _, _) => none
    | _ => none

/-- First match of `KEY\s*"([^"]+)"` anywhere in the list: the source's
`content.match(/"score":\s*"([^"]+)"/)` and `.../"feedback":\s*"([^"]+)"/`. -/
def searchKeyQuoted (key : List Char) : List Char → Option (List Char)
  | [] => none
  | l@(_ :: rest) =>
    match matchKeyQuotedAt key l with
    | some cap => some cap
    | none => searchKeyQuoted key rest

/-- Anchored `KEY\s*\[([^\]]+)\]`: returns the capture group. -/
def matchKeyArrAt (key : List Char) (l : List Char) : Option (List Char) :=
  match dropLit key l with
  | none => none
  | some r =>
    match dropWsL r with
    | '[' :: r2 =>
      match spanNe ']' r2 with
      | ([], _) => none
      | (c :: cs, ']' :: _) => some (c :: cs)
      | (_ :: _, _) => none
    | _ => none

/-- First match of `KEY\s*\[([^\]]+)\]` anywhere: the server's
`content.match(/"feedback":\s*\[([^\]]+)\]/)`. -/
def searchKeyArr (key : List Char) : List Char → Option (List Char)
  | [] => none
  | l@(_ :: rest) =>
    match matchKeyArrAt key l with
    | some cap => some cap
    | none => searchKeyArr key rest

/-- Anchored matcher for the replace regex `` ```json\s* ``. -/
def matchFenceJsonWsAt (l : List Char) : Option (List Char) :=
  (dropLit fenceJsonL l).map dropWsL

/-- Anchored matcher for the replace regex `` ```\s* ``. -/
def matchFenceWsAt (l : List Char) : Option (List Char) :=
  (dropLit fenceL l).map dropWsL

/-- Anchored matcher for the replace literal `` ```json `` (no `\s*`). -/
def matchFenceJsonAt (l : List Char) : Option (List Char) :=
  dropLit fenceJsonL l

/-- Anchored matcher for the replace literal `` ``` `` (no `\s*`). -/
def matchFenceAt (l : List Char) : Option (List Char) :=
  dropLit fenceL l

/-- Anchored matcher for the replace regex `\x7b\s*"score":\s*"[^"]*",?\s*`
(an opening brace, the quoted score field, an optional comma, whitespace). -/
def matchScoreObjAt (l : List Char) : Option (List Char) :=
  match l with
  | '\x7b' :: r0 =>
    match dropLit scoreKeyL (dropWsL r0) with
    | none => none
    | some r1 =>
      match dropWsL r1 with
      | '"' :: r2 =>
        let (_, r3) := spanNe '"' r2
        match r3 with
        | '"' :: r4 =>
          match r4 with
          | ',' :: r5 => some (dropWsL r5)
          | _ => some (dropWsL r4)
        | _ => none
      | _ => none
  | _ => none

/-- Anchored matcher for the replace regex `"feedback":\s*"`. -/
def matchFeedbackKeyAt (l : List Char) : Option (List Char) :=
  match dropLit feedbackKeyL l with
  | none => none
  | some r =>
    match dropWsL r with
    | '"' :: r2 => some r2
    | _ => none

/-- Anchored matcher for the replace regex `"\s*\x7d`
(a quote, whitespace, a closing brace). -/
def matchQuoteBraceAt (l : List Char) : Option (List Char) :=
  match l with
  | '"' :: r =>
    match dropWsL r with
    | '\x7d' :: r2 => some r2
    | _ => none
  | _ => none

end PdfGrader

namespace PdfGrader

/-! ### Response normalization (the inner try/catch of `callGeminiAPI`)

`JSON.parse` is an external library; it enters as the oracle
`p : String → Option α` (`none` = it threw).  The normalizer either returns
the parsed value unchanged or repairs the raw content into a
`\x7bscore, feedback\x7d` pair. -/

/-- Result of `callGeminiAPI`'s inner normalization: either the value
`JSON.parse` produced, returned as-is, or a repaired score/feedback record. -/
inductive NormResult (α : Type) where
  | parsed (v : α)
  | repaired (score feedback : String)
deriving DecidableEq

/-- Server lines 109–112: strip `` ```json\s* `` and `` ```\s* `` globally,
then `trim`, before attempting `JSON.parse` — the fence-strip step spec §4.2
gives the normalizer of both shells. -/
def cleanForParse (content : String) : String :=
  jsTrim ⟨gsubL matchFenceWsAt (gsubL matchFenceJsonWsAt content.data)⟩

/-- `content.match(/"score":\s*"([^"]+)"/)`, capture group. -/
def scoreMatch (content : String) : Option String :=
  (searchKeyQuoted scoreKeyL content.data).map fun cap => ⟨cap⟩

/-- `content.match(/"feedback":\s*"([^"]+)"/)`, capture group. -/
def feedbackMatch (content : String) : Option String :=
  (searchKeyQuoted feedbackKeyL content.data).map fun cap => ⟨cap⟩

/-- `content.match(/"feedback":\s*\[([^\]]+)\]/)`, capture group
(server variant only). -/
def feedbackArrayMatch (content : String) : Option String :=
  (searchKeyArr feedbackKeyL content.data).map fun cap => ⟨cap⟩

/-- The server's array-branch cleanup of the captured array body:
`.replace(/"/g, '').replace(/,/g, '\n').replace(/\\n/g, '\n').trim()`. -/
def arrayFeedbackCleanup (cap : String) : String :=
  ⟨trimL (replEscN ((cap.data.filter fun c => c != '"').map
    fun c => if c = ',' then '\n' else c))⟩

/-- The final-fallback cleanup chain applied to the whole content:
remove `` ```json ``, `` ``` ``, the brace-score prefix, the feedback key,
quote-brace tails, unescape `\n`, then `trim`. -/
def cleanupFeedback (content : String) : String :=
  jsTrim ⟨replEscN (gsubL matchQuoteBraceAt (gsubL matchFeedbackKeyAt
    (gsubL matchScoreObjAt (gsubL matchFenceAt
      (gsubL matchFenceJsonAt content.data)))))⟩

/-- The generic placeholder feedback used when cleanup yields too little. -/
def placeholderFeedback : String :=
  "• Analysis completed\n• Please review the document for quality\n• Consider the rubric requirements\n• Make improvements as needed"

/-- The default score used when no score pattern is found. -/
def defaultScore : String := "Analysis Complete"

/-- The final fallback branch shared by both variants: clean the content of
JSON artifacts and substitute the placeholder when the result is falsy or
shorter than 10 characters. -/
def fallbackFeedback (content : String) : String :=
  if cleanupFeedback content = "" ∨ (cleanupFeedback content).length < 10 then
    placeholderFeedback
  else cleanupFeedback content

/-- The score half of the repair: `scoreMatch` capture or the default. -/
def extractedScore (content : String) : String :=
  match scoreMatch content with
  | some cap => cap
  | none => defaultScore

/-- Server (`server.js` lines 107–161) response normalization: parse attempt
on the cleaned content, else regex repair with quoted-string, array-form and
cleanup branches. -/
def normalizeServer (p : String → Option α) (content : String) : NormResult α :=
  match p (cleanForParse content) with
  | some v => .parsed v
  | none =>
    let fb :=
      match feedbackMatch content with
      | some cap => (⟨replEscN cap.data⟩ : String)
      | none =>
        match feedbackArrayMatch content with
        | some cap => arrayFeedbackCleanup cap
        | none => fallbackFeedback content
    .repaired (extractedScore content) fb

/-- Map a thrown Gemini-client error message to the user-facing message by
substring matching, in the source's `if`/`else if` order. -/
def categorizeGeminiError (msg : String) : String :=
  if jsIncludes msg "API_KEY_INVALID" then "Invalid Gemini API key"
  else if jsIncludes msg "QUOTA_EXCEEDED" then "API quota exceeded. Please try again later."
  else if jsIncludes msg "SAFETY" then "Content was blocked by safety filters. Please try with different content."
  else "Gemini API request failed: " ++ msg

/-! ### Prompt composition -/

/-- The server's prompt template (`server.js` lines 83–97).  In that template
literal `\n` inside the feedback example is a real newline character. -/
def mkPromptServer (documentText rubricText customInstructions : String) : String :=
  "You are an academic evaluator. Analyze this document against the rubric and provide a simple, concise evaluation.\n\nRUBRIC:\n"
  ++ rubricText
  ++ "\n\nDOCUMENT TO EVALUATE:\n"
  ++ documentText
  ++ "\n\n"
  ++ (if customInstructions ≠ "" then "ADDITIONAL INSTRUCTIONS: " ++ customInstructions else "")
  ++ "\n\nPlease provide your response in this JSON format with bullet points:\n\x7b\n    \"score\": \"X/Y or percentage\", \n    \"feedback\": \"• Main strength of the document\n• Key area that needs improvement\n• Specific suggestion for enhancement\n• Overall assessment in one sentence\"\n\x7d"

end PdfGrader

namespace PdfGrader

/-! ### External library oracles and file intake -/

/-- A Node `Buffer`: raw bytes. -/
abbrev Buffer := List Nat

/-- The external libraries both shells delegate to, as oracles.
`pdfParse b` models `(await pdfParse(b)).text` (`error` = the library threw);
`mammothExtractRawText b` models `(await mammoth.extractRawText({buffer})).value`;
`utf8ToString` models `buffer.toString('utf8')`;
`fromBase64` models `Buffer.from(s, 'base64')`;
`jsonParse` models `JSON.parse` (`none` = it threw);
`gemini prompt` models the Gemini client round trip: the reply text of
`model.generateContent(prompt)`, or the thrown error's message. -/
structure Libs (α : Type) where
  pdfParse : Buffer → Except String String
  mammothExtractRawText : Buffer → Except String String
  utf8ToString : Buffer → String
  fromBase64 : String → Buffer
  jsonParse : String → Option α
  gemini : String → Except String String

/-- A multer in-memory upload: original filename and byte buffer. -/
structure MulterFile where
  originalname : String
  buffer : Buffer

/-- Server `extractTextFromPDF` (`server.js` 40–47): wrap the library call,
substitute a placeholder for a falsy `data.text`, wrap thrown errors. -/
def extractTextFromPDF (L : Libs α) (buffer : Buffer) : Except String String :=
  match L.pdfParse buffer with
  | .ok t => .ok (if t = "" then "Unable to extract text from PDF" else t)
  | .error e => .error ("Failed to parse PDF: " ++ e)

/-- Server `extractTextFromDocx` (`server.js` 49–56). -/
def extractTextFromDocx (L : Libs α) (buffer : Buffer) : Except String String :=
  match L.mammothExtractRawText buffer with
  | .ok t => .ok (if t = "" then "Unable to extract text from DOCX" else t)
  | .error e => .error ("Failed to parse DOCX: " ++ e)

/-- Server `extractTextFromFile` (`server.js` 58–74): dispatch on the
lowercased filename suffix. -/
def extractTextFromFileServer (L : Libs α) (file : Option MulterFile) :
    Except String String :=
  match file with
  | none => .error "No file provided"
  | some f =>
    let filename := jsToLowerCase f.originalname
    if jsEndsWith filename ".pdf" then extractTextFromPDF L f.buffer
    else if jsEndsWith filename ".docx" then extractTextFromDocx L f.buffer
    else if jsEndsWith filename ".txt" then .ok (L.utf8ToString f.buffer)
    else .error "Unsupported file format. Please use PDF, DOCX, or TXT files."

/-- Server `callGeminiAPI` (`server.js` 76–175): fail when the env key is
falsy, else call the model and normalize; categorize thrown client errors. -/
def callGeminiAPIServer (L : Libs α) (envKey : Option String)
    (documentText rubricText customInstructions : String) :
    Except String (NormResult α) :=
  let apiKeyMissing := match envKey with | none => true | some s => s = ""
  if apiKeyMissing then .error "Gemini API key not configured on server"
  else
    match L.gemini (mkPromptServer documentText rubricText customInstructions) with
    | .error e => .error (categorizeGeminiError e)
    | .ok content => .ok (normalizeServer L.jsonParse content)

/-- JSON body shapes the handlers produce:
`errOnly e` = `\x7b error \x7d` (no `success` field);
`errFail e` = `\x7b error, success: false \x7d`;
`success …` = `\x7b success: true, result, metadata \x7d`. -/
inductive RespBody (α : Type) where
  | errOnly (error : String)
  | errFail (error : String)
  | success (result : NormResult α) (documentLength rubricLength : Nat)
deriving DecidableEq

/-- An HTTP response: status code and JSON body shape. -/
structure Response (α : Type) where
  status : Nat
  body : RespBody α
deriving DecidableEq

/-- The server's `POST /api/analyze` route (`server.js` 177–230).  Thrown
errors from extraction or the API call land in the route's catch, which
replies 500 with `\x7b error, success: false \x7d`. -/
def serverAnalyze (L : Libs α) (envKey : Option String)
    (pdfFile rubricFile : Option MulterFile)
    (customInstructions : Option String) : Response α :=
  match pdfFile with
  | none => ⟨400, .errOnly "PDF file is required"⟩
  | some pf =>
    match rubricFile with
    | none => ⟨400, .errOnly "Rubric file is required"⟩
    | some rf =>
      match extractTextFromFileServer L (some pf) with
      | .error e => ⟨500, .errFail e⟩
      | .ok documentText =>
        match extractTextFromFileServer L (some rf) with
        | .error e => ⟨500, .errFail e⟩
        | .ok rubricText =>
          if jsTrim documentText = "" then
            ⟨400, .errOnly "Could not extract text from PDF. Please ensure the PDF contains readable text."⟩
          else if jsTrim rubricText = "" then
            ⟨400, .errOnly "Could not extract text from rubric file. Please check the file format."⟩
          else
            match callGeminiAPIServer L envKey documentText rubricText
                (customInstructions.getD "") with
            | .error e => ⟨500, .errFail e⟩
            | .ok result =>
              ⟨200, .success result documentText.length rubricText.length⟩

end PdfGrader

namespace PdfGrader

/-- A concrete library instantiation used to exercise the model on
particular inputs: every library call succeeds with fixed output and
`JSON.parse` always fails. -/
def sampleLibs : Libs Unit where
  pdfParse := fun _ => .ok "sample pdf text"
  mammothExtractRawText := fun _ => .ok "sample docx text"
  utf8ToString := fun _ => "sample txt"
  fromBase64 := fun _ => [65, 66, 67]
  jsonParse := fun _ => none
  gemini := fun _ => .ok "reply"

end PdfGrader

namespace PdfGrader

end PdfGrader

namespace PdfGrader

end PdfGrader

namespace PdfGrader

end PdfGrader

namespace PdfGrader

end PdfGrader

namespace PdfGrader

/-- C6: a thrown Gemini-client error is categorized by substring matching on
its message, in the source's order — `API_KEY_INVALID` → invalid key,
`QUOTA_EXCEEDED` → quota message, `SAFETY` → safety message, anything else →
`Gemini API request failed: ...` — and the categorized message surfaces as an
HTTP 500 `\x7berror, success:false\x7d` response. -/
theorem gemini_error_categorized (msg : String) :
    (jsIncludes msg "API_KEY_INVALID" = true →
      categorizeGeminiError msg = "Invalid Gemini API key") ∧
    (jsIncludes msg "API_KEY_INVALID" = false →
     jsIncludes msg "QUOTA_EXCEEDED" = true →
      categorizeGeminiError msg = "API quota exceeded. Please try again later.") ∧
    (jsIncludes msg "API_KEY_INVALID" = false →
     jsIncludes msg "QUOTA_EXCEEDED" = false →
     jsIncludes msg "SAFETY" = true →
      categorizeGeminiError msg =
        "Content was blocked by safety filters. Please try with different content.") ∧
    (jsIncludes msg "API_KEY_INVALID" = false →
     jsIncludes msg "QUOTA_EXCEEDED" = false →
     jsIncludes msg "SAFETY" = false →
      categorizeGeminiError msg = "Gemini API request failed: " ++ msg) ∧
    (∀ (α : Type) (L : Libs α) (k : String) (pf rf : MulterFile)
       (ci : Option String) (documentText rubricText : String),
      k ≠ "" →
      extractTextFromFileServer L (some pf) = .ok documentText →
      extractTextFromFileServer L (some rf) = .ok rubricText →
      jsTrim documentText ≠ "" →
      jsTrim rubricText ≠ "" →
      L.gemini (mkPromptServer documentText rubricText (ci.getD "")) = .error msg →
      serverAnalyze L (some k) (some pf) (some rf) ci =
        ⟨500, .errFail (categorizeGeminiError msg)⟩) := by
  refine ⟨?_, ?_, ?_, ?_, ?_⟩
  · intro h1
    simp [categorizeGeminiError, h1]
  · intro h1 h2
    simp [categorizeGeminiError, h1, h2]
  · intro h1 h2 h3
    simp [categorizeGeminiError, h1, h2, h3]
  · intro h1 h2 h3
    simp [categorizeGeminiError, h1, h2, h3]
  · intro α L k pf rf ci documentText rubricText hk hd hr htd htr hg
    simp [serverAnalyze, callGeminiAPIServer, hd, hr, hg, htd, htr, hk]

theorem gemini_error_categorized_witness :
    jsIncludes "429 QUOTA_EXCEEDED" "API_KEY_INVALID" = false ∧
    jsIncludes "429 QUOTA_EXCEEDED" "QUOTA_EXCEEDED" = true ∧
    categorizeGeminiError "429 QUOTA_EXCEEDED" =
      "API quota exceeded. Please try again later." ∧
    serverAnalyze { sampleLibs with gemini := fun _ => .error "429 QUOTA_EXCEEDED" }
        (some "k") (some ⟨"a.pdf", [1]⟩) (some ⟨"r.txt", [2]⟩) none =
      ⟨500, .errFail (categorizeGeminiError "429 QUOTA_EXCEEDED")⟩ := by
  refine ⟨by decide, by decide, ?_, ?_⟩
  · exact (gemini_error_categorized "429 QUOTA_EXCEEDED").2.1 (by decide) (by decide)
  · exact (gemini_error_categorized "429 QUOTA_EXCEEDED").2.2.2.2 Unit
      { sampleLibs with gemini := fun _ => .error "429 QUOTA_EXCEEDED" }
      "k" ⟨"a.pdf", [1]⟩ ⟨"r.txt", [2]⟩ none "sample pdf text" "sample txt"
      (by decide) rfl rfl (by decide) (by decide) rfl

end PdfGrader

namespace PdfGrader

end PdfGrader
